import Mathlib

/-!
Verification of the client-side communication layer of UAVLogViewer
(src/components/FloatingButton.vue): the WebSocket connection lifecycle
with automatic reconnect, the chunked file uploader, and the inbound
message router.  The Vue component methods are embedded as pure functions
over an explicit component-state record; asynchronous callbacks
(onopen / onclose / onerror / timer expiry) are modelled as events of a
step function, and traces as folds over event lists.

Modelling conventions:
* machine timestamps (new Date().toISOString()) are threaded as an opaque
  string argument named now;
* the Math.random based client id is abstracted as a fixed string, since
  no property depends on its value;
* the base64 transport encoding produced by FileReader.readAsDataURL is
  modelled as the identity on the sliced bytes (it is injective and the
  properties of interest concern the underlying byte slices);
* two instrumentation counters (opensStarted, schedCount) count WebSocket
  constructor calls and scheduled reconnect timers; no source behaviour
  reads them, they only observe side effects for the specification.
-/

namespace UAV

/-- readyState values of a browser WebSocket object. -/
inductive ReadyState
  | CONNECTING
  | OPEN
  | CLOSING
  | CLOSED
deriving DecidableEq, Repr

/-- A message record { type, content, timestamp }, used both for inbound
wire messages and for entries pushed onto this.messages. -/
structure Msg where
  type : String
  content : String
  timestamp : String
deriving DecidableEq, Repr

/-- A file handle: Blob name and bytes (Blob.size = bytes.length). -/
structure File where
  name : String
  bytes : List Nat
deriving DecidableEq, Repr

/-- The component state of FloatingButton.vue (the data () fields that the
communication layer reads or writes, plus two instrumentation counters). -/
structure CState where
  messages : List Msg
  hasFile : Bool
  isConnected : Bool
  /-- this.ws: none models null, some rs models a socket in state rs. -/
  ws : Option ReadyState
  clientId : Option String
  reconnectAttempts : Nat
  currentFile : Option File
  isSendingFile : Bool
  isChatEnabled : Bool
  isProcessingQuestion : Bool
  isUploadingFile : Bool
  isProcessingFile : Bool
  newMessage : String
  /-- instrumentation: number of new WebSocket(...) constructions. -/
  opensStarted : Nat
  /-- instrumentation: number of reconnect timers scheduled by onclose. -/
  schedCount : Nat
deriving DecidableEq, Repr

/-- maxReconnectAttempts: 5. -/
def maxReconnectAttempts : Nat := 5

/-- reconnectDelay: 5000 ms (a real-time constant; delays are no-ops in
the state model). -/
def reconnectDelay : Nat := 5000

/-- chunkSize: 1024 * 1024 bytes. -/
def chunkSize : Nat := 1024 * 1024

/-- The initial data () state. -/
def initState : CState where
  messages := []
  hasFile := false
  isConnected := false
  ws := none
  clientId := none
  reconnectAttempts := 0
  currentFile := none
  isSendingFile := false
  isChatEnabled := true
  isProcessingQuestion := false
  isUploadingFile := false
  isProcessingFile := false
  newMessage := ""
  opensStarted := 0
  schedCount := 0

/-- content.startsWith(pre) of JavaScript, expressed on the character
lists of the two strings (true iff pre is a prefix of s). -/
def strStartsWith (s pre : String) : Bool :=
  pre.data.isPrefixOf s.data

/-- The test !newMessage.trim() of JavaScript: trim removes whitespace at
both ends, so the trimmed string is empty exactly when every character of
the draft is whitespace. -/
def blankDraft (s : String) : Bool :=
  s.data.all (fun c => c.isWhitespace)

/-- onMessageReceived: the inbound message router (dispatch on
message.type, with the content-pattern filters of the system branch in
source order).  scrollToBottom is presentation-only and not modelled. -/
def onMessageReceived (s : CState) (m : Msg) : CState :=
  if m.type = "chat" then
    if m.content = "Processing your question..." then
      { s with isProcessingQuestion := true }
    else
      { s with isProcessingQuestion := false,
               messages := s.messages ++
                 [{ type := "server", content := m.content, timestamp := m.timestamp }] }
  else if m.type = "system" then
    if m.content = "Connected to chat server" ∨
        strStartsWith m.content "Welcome! Your client ID is:" = true then
      s
    else if m.content = "Processing File" then
      s
    else if strStartsWith m.content "Log file processed successfully:" = true then
      { s with isProcessingFile := false, isUploadingFile := false,
               isProcessingQuestion := false }
    else if strStartsWith m.content "File saved successfully:" = true then
      { s with isUploadingFile := false, isProcessingFile := true }
    else
      { s with messages := s.messages ++
          [{ type := "system", content := m.content, timestamp := m.timestamp }] }
  else if m.type = "acknowledgment" then
    s
  else if m.type = "error" then
    { s with isProcessingQuestion := false, isUploadingFile := false,
             isProcessingFile := false,
             messages := s.messages ++
               [{ type := "system", content := "Error: " ++ m.content,
                  timestamp := m.timestamp }] }
  else
    s

/-- The fixed client id: the source generates one with Math.random the
first time connectWebSocket runs; the randomness is abstracted as a fixed
string since no property depends on its value, only on its stability. -/
def genClientId : String := "client_k3q8v1z2x"

/-- connectWebSocket, synchronous part: returns unchanged if a socket
exists and is OPEN; otherwise assigns clientId when unset and constructs
a new WebSocket (readyState CONNECTING).  Handler registration has no
immediate state effect; the handlers fire later as events of step. -/
def connectWebSocket (s : CState) : CState :=
  if s.ws = some ReadyState.OPEN then s
  else if s.clientId = none then
    { s with clientId := some genClientId, ws := some ReadyState.CONNECTING,
             opensStarted := s.opensStarted + 1 }
  else
    { s with ws := some ReadyState.CONNECTING, opensStarted := s.opensStarted + 1 }

/-- disconnectWebSocket: if this.ws is non-null, close it when OPEN (the
close call itself mutates only the discarded socket object), null the
handle and clear isConnected; otherwise a no-op. -/
def disconnectWebSocket (s : CState) : CState :=
  match s.ws with
  | none => s
  | some _ => { s with ws := none, isConnected := false }

/-- ws.onopen handler: marks connected, resets reconnectAttempts, and the
socket object itself moves to readyState OPEN. -/
def onOpenHandler (s : CState) : CState :=
  { s with isConnected := true, reconnectAttempts := 0,
           ws := s.ws.map (fun _ => ReadyState.OPEN) }

/-- ws.onerror handler: clears isConnected and pushes a system entry. -/
def onErrorHandler (now : String) (s : CState) : CState :=
  { s with isConnected := false,
           messages := s.messages ++
             [{ type := "system", content := "Error connecting to chat server",
                timestamp := now }] }

/-- The terminal history entry text pushed when the attempt ceiling is
reached. -/
def failedReconnectText : String :=
  "Failed to reconnect to chat server after multiple attempts"

/-- ws.onclose handler: clears isConnected (the component handle, if it
still points at this socket, is now CLOSED); then either increments
reconnectAttempts and schedules a reconnect timer (attempts below the
ceiling) or pushes the terminal failure entry. -/
def onCloseHandler (now : String) (s : CState) : CState :=
  if s.reconnectAttempts < maxReconnectAttempts then
    { s with isConnected := false, ws := s.ws.map (fun _ => ReadyState.CLOSED),
             reconnectAttempts := s.reconnectAttempts + 1,
             schedCount := s.schedCount + 1 }
  else
    { s with isConnected := false, ws := s.ws.map (fun _ => ReadyState.CLOSED),
             messages := s.messages ++
               [{ type := "system", content := failedReconnectText, timestamp := now }] }

/-- Outcome of a this.ws.send call: a null handle or a CONNECTING socket
throws; an OPEN socket delivers; a CLOSING or CLOSED socket silently
discards the data without raising (browser WebSocket semantics). -/
inductive SendRes
  | delivered
  | dropped
  | threw
deriving DecidableEq, Repr

/-- Result of this.ws.send as a function of the handle. -/
def wsSend : Option ReadyState → SendRes
  | none => SendRes.threw
  | some ReadyState.CONNECTING => SendRes.threw
  | some ReadyState.OPEN => SendRes.delivered
  | some ReadyState.CLOSING => SendRes.dropped
  | some ReadyState.CLOSED => SendRes.dropped

/-- sendMessage: guarded on a non-blank draft, isConnected, and a non-null
handle; resets isProcessingQuestion, pushes the user entry, then sends; a
throwing send pushes a failure entry, otherwise the draft is cleared. -/
def sendMessage (now : String) (s : CState) : CState :=
  if blankDraft s.newMessage = true ∨ s.isConnected = false ∨ s.ws = none then s
  else
    match wsSend s.ws with
    | SendRes.threw =>
        { s with isProcessingQuestion := false,
                 messages := s.messages ++
                   [{ type := "user", content := s.newMessage, timestamp := now },
                    { type := "system",
                      content := "Failed to send message. Please try again.",
                      timestamp := now }] }
    | _ =>
        { s with isProcessingQuestion := false,
                 messages := s.messages ++
                   [{ type := "user", content := s.newMessage, timestamp := now }],
                 newMessage := "" }

/-- sendDataToBackend: sends a data-typed snapshot when the socket is OPEN
and otherwise only logs; in both branches it mutates no component state. -/
def sendDataToBackend (s : CState) : CState := s

/-- The outbound file-transfer wire messages with their payloads. -/
inductive WireMsg
  | fileChunk (chunkIndex totalChunks : Nat) (fileName : String) (data : List Nat)
  | fileComplete (fileName : String) (totalChunks : Nat)
deriving DecidableEq, Repr

/-- Math.ceil(size / chunkSize) on natural byte counts. -/
def totalChunksOf (size : Nat) : Nat := (size + chunkSize - 1) / chunkSize

/-- this.currentFile.slice(i * chunkSize, min(i * chunkSize + chunkSize, size)). -/
def fileSliceOf (bytes : List Nat) (i : Nat) : List Nat :=
  let start := i * chunkSize
  let stop := min (start + chunkSize) bytes.length
  (bytes.drop start).take (stop - start)

/-- The file_chunk message for index i (data = the byte slice; the base64
transport encoding is modelled as the identity on the bytes). -/
def chunkMsg (f : File) (total i : Nat) : WireMsg :=
  WireMsg.fileChunk i total f.name (fileSliceOf f.bytes i)

/-- The sequential chunk loop of sendFileChunks, started at index i with
rem iterations left: each iteration reads one chunk via FileReader (reads
are counted; chunk reads themselves do not fail in this model) and then
sends it.  Returns the delivered messages, the number of chunk reads, and
whether a send threw (which aborts the remaining iterations, as the
rejection propagates to the outer catch). -/
def sendChunkLoop (ws : Option ReadyState) (f : File) (total i : Nat) :
    Nat → List WireMsg × Nat × Bool
  | 0 => ([], 0, false)
  | rem + 1 =>
    match wsSend ws with
    | SendRes.threw => ([], 1, true)
    | SendRes.delivered =>
        let r := sendChunkLoop ws f total (i + 1) rem
        (chunkMsg f total i :: r.1, r.2.1 + 1, r.2.2)
    | SendRes.dropped =>
        let r := sendChunkLoop ws f total (i + 1) rem
        (r.1, r.2.1 + 1, r.2.2)

/-- The exception text of the throwing send, abstracted as a fixed string
(the platform wording is environment specific). -/
def sendThrowReason : String := "WebSocket is not connected"

/-- The fixed inter-chunk throttle (a real-time constant; delays are
no-ops in the state model). -/
def interChunkDelayMs : Nat := 100

/-- Result of a sendFileChunks run: the final component state, the wire
messages actually delivered, and the number of chunk reads performed. -/
structure SFCOut where
  state : CState
  sent : List WireMsg
  reads : Nat
deriving DecidableEq, Repr

/-- The flag writes at the top of the try block of sendFileChunks. -/
def startUploadState (s : CState) : CState :=
  { s with isSendingFile := true, isChatEnabled := false, isUploadingFile := true }

/-- The catch block of sendFileChunks followed by its finally block: push
the upload error entry, re-enable chat, clear the uploading flag, and
clear isSendingFile. -/
def uploadCatchState (now : String) (s1 : CState) : CState :=
  { s1 with
      messages := s1.messages ++
        [{ type := "error", content := "Error sending file: " ++ sendThrowReason,
           timestamp := now }],
      isChatEnabled := true, isUploadingFile := false, isSendingFile := false }

/-- The tail of the try block of sendFileChunks followed by its finally
block: null currentFile and clear isSendingFile, leaving isUploadingFile
and isChatEnabled as the top of the try block set them. -/
def uploadDoneState (s1 : CState) : CState :=
  { s1 with currentFile := none, isSendingFile := false }

/-- The tail of sendFileChunks after the chunk loop has produced its
(sent, reads, aborted) outcome: an aborted loop lands in the catch block;
otherwise the file_complete send follows, itself throwing into the catch
block, delivering, or being silently discarded on a closed socket. -/
def finishUpload (now : String) (s : CState) (ws : Option ReadyState)
    (f : File) (total : Nat) : List WireMsg × Nat × Bool → SFCOut
  | (sent, reads, true) =>
    { state := uploadCatchState now (startUploadState s),
      sent := sent, reads := reads }
  | (sent, reads, false) =>
    match wsSend ws with
    | SendRes.threw =>
      { state := uploadCatchState now (startUploadState s),
        sent := sent, reads := reads }
    | SendRes.delivered =>
      { state := uploadDoneState (startUploadState s),
        sent := sent ++ [WireMsg.fileComplete f.name total], reads := reads }
    | SendRes.dropped =>
      { state := uploadDoneState (startUploadState s),
        sent := sent, reads := reads }

/-- sendFileChunks: no-op without a currentFile; otherwise sets
isSendingFile, disables chat, sets isUploadingFile, runs the chunk loop,
and on success sends file_complete and clears currentFile.  A throwing
send lands in the catch block: an error entry is pushed, chat re-enabled,
isUploadingFile cleared.  The finally block always clears isSendingFile. -/
def sendFileChunks (now : String) (s : CState) : SFCOut :=
  match s.currentFile with
  | none => { state := s, sent := [], reads := 0 }
  | some f =>
    finishUpload now s s.ws f (totalChunksOf f.bytes.length)
      (sendChunkLoop s.ws f (totalChunksOf f.bytes.length) 0
        (totalChunksOf f.bytes.length))

/-- The asynchronous events of the component: explicit calls and the
socket callbacks. timerFire is the expiry of a reconnect timer, whose
callback invokes connectWebSocket. -/
inductive WsEv
  | connectCall
  | wsOpen
  | wsError
  | wsClose
  | timerFire
  | disconnectCall
  | inbound (m : Msg)
  | sendCall
  | uploadCall
deriving DecidableEq, Repr

/-- One event of the component machine. -/
def step (now : String) (s : CState) : WsEv → CState
  | WsEv.connectCall => connectWebSocket s
  | WsEv.wsOpen => onOpenHandler s
  | WsEv.wsError => onErrorHandler now s
  | WsEv.wsClose => onCloseHandler now s
  | WsEv.timerFire => connectWebSocket s
  | WsEv.disconnectCall => disconnectWebSocket s
  | WsEv.inbound m => onMessageReceived s m
  | WsEv.sendCall => sendMessage now s
  | WsEv.uploadCall => (sendFileChunks now s).state

/-- A run of the machine over a list of events. -/
def runTrace (now : String) (s : CState) (evs : List WsEv) : CState :=
  evs.foldl (step now) s

/-- Number of terminal failure entries in a history. -/
def countFailedEntries (l : List Msg) : Nat :=
  l.countP (fun e => e.content == failedReconnectText)

/-- A freshly connected session (connect call followed by its onopen). -/
def connectedS : CState := runTrace "t0" initState [WsEv.connectCall, WsEv.wsOpen]

/-- A small three-byte file. -/
def aFile : File := { name := "a.bin", bytes := [0, 1, 2] }

/-- A one-byte file. -/
def bFile : File := { name := "f.bin", bytes := [7] }

/-- A connected session holding a small three-byte file. -/
def uploadReadyS : CState :=
  { initState with ws := some ReadyState.OPEN, isConnected := true,
                   currentFile := some aFile }

/-- A disconnected session (null handle) holding a one-byte file. -/
def offlineUploadS : CState :=
  { initState with currentFile := some bFile }

/-- A session that saw an unexpected close (scheduling a reconnect timer)
and was then explicitly disconnected. -/
def postDisconnectS : CState :=
  runTrace "t0" connectedS [WsEv.wsClose, WsEv.disconnectCall]

/-- A connected session with a pending question indicator and a draft. -/
def chatPendingS : CState :=
  { initState with isProcessingQuestion := true, isConnected := true,
                   ws := some ReadyState.OPEN, newMessage := "hi" }

/-- The component state right after a successful upload of a.bin. -/
def afterUploadS : CState := (sendFileChunks "t0" uploadReadyS).state

/-- Unfolding a trace by one event. -/
theorem runTrace_cons (now : String) (s : CState) (e : WsEv) (evs : List WsEv) :
    runTrace now s (e :: evs) = runTrace now (step now s e) evs := rfl

/-- Branch equation of sendFileChunks without a current file. -/
theorem sendFileChunks_none (now : String) (s : CState)
    (hcf : s.currentFile = none) :
    sendFileChunks now s = { state := s, sent := [], reads := 0 } := by
  unfold sendFileChunks
  rw [hcf]

/-- Branch equation of sendFileChunks with a current file: run the chunk
loop and dispatch on its outcome. -/
theorem sendFileChunks_some (now : String) (s : CState) (f : File)
    (hcf : s.currentFile = some f) :
    sendFileChunks now s =
      finishUpload now s s.ws f (totalChunksOf f.bytes.length)
        (sendChunkLoop s.ws f (totalChunksOf f.bytes.length) 0
          (totalChunksOf f.bytes.length)) := by
  unfold sendFileChunks
  rw [hcf]

/-- Over an OPEN socket every send delivers: the loop starting at index i
with rem iterations delivers exactly the chunk messages of indices
i, i+1, ..., i+rem-1 in order, performs rem reads, and does not abort. -/
theorem sendChunkLoop_open (f : File) (total : Nat) :
    ∀ (rem i : Nat),
      sendChunkLoop (some ReadyState.OPEN) f total i rem =
        ((List.range' i rem).map (chunkMsg f total), rem, false)
  | 0, i => by simp [sendChunkLoop]
  | rem + 1, i => by
      simp [sendChunkLoop, wsSend, sendChunkLoop_open f total rem (i + 1),
        List.range'_succ]

/-- The success path of sendFileChunks over an OPEN socket, in closed
form: all chunks then one completion message, one read per chunk, and the
final state with the upload indicator still on and chat still disabled. -/
theorem sendFileChunks_open_eq (now : String) (s : CState) (f : File)
    (hws : s.ws = some ReadyState.OPEN) (hf : s.currentFile = some f) :
    sendFileChunks now s =
      { state := { s with isSendingFile := false, isChatEnabled := false,
                          isUploadingFile := true, currentFile := none },
        sent := (List.range' 0 (totalChunksOf f.bytes.length)).map
                  (chunkMsg f (totalChunksOf f.bytes.length)) ++
                [WireMsg.fileComplete f.name (totalChunksOf f.bytes.length)],
        reads := totalChunksOf f.bytes.length } := by
  rw [sendFileChunks_some now s f hf]
  conv_lhs => rw [hws]
  rw [sendChunkLoop_open f (totalChunksOf f.bytes.length)
    (totalChunksOf f.bytes.length) 0]
  rfl

/-- Length of the i-th byte slice. -/
theorem fileSliceOf_length (bytes : List Nat) (i : Nat) :
    (fileSliceOf bytes i).length =
      min (min (i * chunkSize + chunkSize) bytes.length - i * chunkSize)
        (bytes.length - i * chunkSize) := by
  simp [fileSliceOf]

/-- connectWebSocket never touches the reconnect counter. -/
theorem connectWebSocket_attempts (s : CState) :
    (connectWebSocket s).reconnectAttempts = s.reconnectAttempts := by
  unfold connectWebSocket
  split
  · rfl
  · split <;> rfl

/-- sendMessage never touches the reconnect counter. -/
theorem sendMessage_attempts (now : String) (s : CState) :
    (sendMessage now s).reconnectAttempts = s.reconnectAttempts := by
  unfold sendMessage
  split
  · rfl
  · split <;> rfl

/-- Fields of the component state that no branch of finishUpload ever
writes: the reconnect counter, the two router-owned processing flags
isProcessingQuestion and isProcessingFile, the socket handle, and the
client id. -/
theorem finishUpload_frame (now : String) (s : CState) (ws : Option ReadyState)
    (f : File) (total : Nat) (ans : List WireMsg × Nat × Bool) :
    (finishUpload now s ws f total ans).state.reconnectAttempts = s.reconnectAttempts ∧
    (finishUpload now s ws f total ans).state.isProcessingQuestion = s.isProcessingQuestion ∧
    (finishUpload now s ws f total ans).state.isProcessingFile = s.isProcessingFile ∧
    (finishUpload now s ws f total ans).state.ws = s.ws ∧
    (finishUpload now s ws f total ans).state.clientId = s.clientId := by
  rcases ans with ⟨sent, reads, ab⟩
  cases ab with
  | true => exact ⟨rfl, rfl, rfl, rfl, rfl⟩
  | false =>
      cases ws with
      | none => exact ⟨rfl, rfl, rfl, rfl, rfl⟩
      | some rs => cases rs <;> exact ⟨rfl, rfl, rfl, rfl, rfl⟩

/-- Fields of the component state that no branch of sendFileChunks ever
writes: the reconnect counter, the two router-owned processing flags
isProcessingQuestion and isProcessingFile, the socket handle, and the
client id. -/
theorem sendFileChunks_frame (now : String) (s : CState) :
    (sendFileChunks now s).state.reconnectAttempts = s.reconnectAttempts ∧
    (sendFileChunks now s).state.isProcessingQuestion = s.isProcessingQuestion ∧
    (sendFileChunks now s).state.isProcessingFile = s.isProcessingFile ∧
    (sendFileChunks now s).state.ws = s.ws ∧
    (sendFileChunks now s).state.clientId = s.clientId := by
  cases hcf : s.currentFile with
  | none => rw [sendFileChunks_none now s hcf]; exact ⟨rfl, rfl, rfl, rfl, rfl⟩
  | some f =>
      rw [sendFileChunks_some now s f hcf]
      exact finishUpload_frame now s s.ws f (totalChunksOf f.bytes.length)
        (sendChunkLoop s.ws f (totalChunksOf f.bytes.length) 0
          (totalChunksOf f.bytes.length))

/-- Fields of the component state that no branch of the message router
ever writes: the reconnect counter, isChatEnabled, the socket handle,
isConnected, and the draft. -/
theorem onMessageReceived_frame (s : CState) (m : Msg) :
    (onMessageReceived s m).reconnectAttempts = s.reconnectAttempts ∧
    (onMessageReceived s m).isChatEnabled = s.isChatEnabled ∧
    (onMessageReceived s m).ws = s.ws ∧
    (onMessageReceived s m).isConnected = s.isConnected := by
  unfold onMessageReceived
  split_ifs <;> exact ⟨rfl, rfl, rfl, rfl⟩

/-- Every event keeps the reconnect counter at or below the ceiling. -/
theorem step_attempts_le (now : String) (s : CState) (e : WsEv)
    (h : s.reconnectAttempts ≤ maxReconnectAttempts) :
    (step now s e).reconnectAttempts ≤ maxReconnectAttempts := by
  cases e with
  | connectCall => rw [step, connectWebSocket_attempts]; exact h
  | timerFire => rw [step, connectWebSocket_attempts]; exact h
  | wsOpen => simp [step, onOpenHandler]
  | wsError => simpa [step, onErrorHandler] using h
  | wsClose =>
      rw [step]
      unfold onCloseHandler
      split
      · next hlt => simpa using hlt
      · simpa using h
  | disconnectCall =>
      rw [step]
      unfold disconnectWebSocket
      split
      · exact h
      · simpa using h
  | inbound m => rw [step, (onMessageReceived_frame s m).1]; exact h
  | sendCall => rw [step, sendMessage_attempts]; exact h
  | uploadCall => rw [step, (sendFileChunks_frame now s).1]; exact h

/-- The ceiling invariant holds along every trace. -/
theorem runTrace_attempts_le (now : String) :
    ∀ (evs : List WsEv) (s : CState),
      s.reconnectAttempts ≤ maxReconnectAttempts →
      (runTrace now s evs).reconnectAttempts ≤ maxReconnectAttempts
  | [], _, h => h
  | e :: evs, s, h =>
      runTrace_attempts_le now evs (step now s e) (step_attempts_le now s e h)

/-- Along runs of consecutive close events, the number of scheduled
reconnect timers never passes the attempt ceiling. -/
theorem closes_sched_bound (now : String) :
    ∀ (n : Nat) (s : CState),
      s.schedCount ≤ s.reconnectAttempts →
      s.reconnectAttempts ≤ maxReconnectAttempts →
      (runTrace now s (List.replicate n WsEv.wsClose)).schedCount ≤
        maxReconnectAttempts
  | 0, _, h1, h2 => le_trans h1 h2
  | n + 1, s, h1, h2 => by
      rw [List.replicate_succ, runTrace_cons]
      by_cases hlt : s.reconnectAttempts < maxReconnectAttempts
      · exact closes_sched_bound now n _
          (by simp [step, onCloseHandler, hlt]; omega)
          (by simp [step, onCloseHandler, hlt]; omega)
      · exact closes_sched_bound now n _
          (by simp [step, onCloseHandler, hlt]; omega)
          (by simp [step, onCloseHandler, hlt]; omega)

/-- C3: after any inbound error-typed message the three processing flags
isProcessingQuestion, isUploadingFile, isProcessingFile are all false, and
exactly one history entry is appended whose content is the server content
prefixed with "Error: ". -/
theorem error_message_clears_flags (s : CState) (m : Msg)
    (h : m.type = "error") :
    (onMessageReceived s m).isProcessingQuestion = false ∧
    (onMessageReceived s m).isUploadingFile = false ∧
    (onMessageReceived s m).isProcessingFile = false ∧
    (onMessageReceived s m).messages = s.messages ++
      [{ type := "system", content := "Error: " ++ m.content,
         timestamp := m.timestamp }] := by
  simp [onMessageReceived, h]

/-- Witness for error_message_clears_flags at a concrete inbound message. -/
theorem error_message_clears_flags_witness :
    (onMessageReceived initState
        { type := "error", content := "boom", timestamp := "t" }).isProcessingQuestion = false ∧
    (onMessageReceived initState
        { type := "error", content := "boom", timestamp := "t" }).isUploadingFile = false ∧
    (onMessageReceived initState
        { type := "error", content := "boom", timestamp := "t" }).isProcessingFile = false ∧
    (onMessageReceived initState
        { type := "error", content := "boom", timestamp := "t" }).messages =
      initState.messages ++
        [{ type := "system", content := "Error: " ++ "boom", timestamp := "t" }] :=
  error_message_clears_flags initState
    { type := "error", content := "boom", timestamp := "t" } rfl

/-- C1: over a connected (OPEN) session holding a file, sendFileChunks
delivers exactly the file_chunk messages of indices 0 .. totalChunks-1 in
increasing order with no gaps or repeats, each carrying the byte slice
[i*chunkSize, min((i+1)*chunkSize, size)), followed by exactly one
file_complete message; in particular a 2.5 MiB file yields exactly three
chunks of sizes 1 MiB, 1 MiB, 0.5 MiB and then the completion message. -/
theorem sendFileChunks_connected_trace (now : String) (s : CState) (f : File)
    (hws : s.ws = some ReadyState.OPEN) (hf : s.currentFile = some f) :
    (sendFileChunks now s).sent =
      (List.range (totalChunksOf f.bytes.length)).map
        (chunkMsg f (totalChunksOf f.bytes.length)) ++
      [WireMsg.fileComplete f.name (totalChunksOf f.bytes.length)] ∧
    (f.bytes.length = 2621440 →
      totalChunksOf f.bytes.length = 3 ∧
      (sendFileChunks now s).sent =
        [chunkMsg f 3 0, chunkMsg f 3 1, chunkMsg f 3 2,
         WireMsg.fileComplete f.name 3] ∧
      (fileSliceOf f.bytes 0).length = 1048576 ∧
      (fileSliceOf f.bytes 1).length = 1048576 ∧
      (fileSliceOf f.bytes 2).length = 524288) := by
  have hmain : (sendFileChunks now s).sent =
      (List.range (totalChunksOf f.bytes.length)).map
        (chunkMsg f (totalChunksOf f.bytes.length)) ++
      [WireMsg.fileComplete f.name (totalChunksOf f.bytes.length)] := by
    rw [sendFileChunks_open_eq now s f hws hf, List.range_eq_range']
  refine ⟨hmain, fun hL => ?_⟩
  have ht : totalChunksOf f.bytes.length = 3 := by
    rw [hL]; decide
  refine ⟨ht, ?_, ?_, ?_, ?_⟩
  · rw [hmain, ht]
    rfl
  · rw [fileSliceOf_length, hL]; decide
  · rw [fileSliceOf_length, hL]; decide
  · rw [fileSliceOf_length, hL]; decide

/-- Witness for sendFileChunks_connected_trace at a concrete session. -/
theorem sendFileChunks_connected_trace_witness :
    (sendFileChunks "tw" uploadReadyS).sent =
      (List.range (totalChunksOf aFile.bytes.length)).map
        (chunkMsg aFile (totalChunksOf aFile.bytes.length)) ++
      [WireMsg.fileComplete aFile.name (totalChunksOf aFile.bytes.length)] :=
  (sendFileChunks_connected_trace "tw" uploadReadyS aFile rfl rfl).1

/-- C2: the reconnect counter never decreases across a close event, is
reset to 0 by every onopen, and along every trace of the machine from the
initial state it never exceeds maxReconnectAttempts (5). -/
theorem reconnectAttempts_invariant :
    (∀ (now : String) (s : CState),
        s.reconnectAttempts ≤ (step now s WsEv.wsClose).reconnectAttempts) ∧
    (∀ (now : String) (s : CState),
        (step now s WsEv.wsOpen).reconnectAttempts = 0) ∧
    (∀ (now : String) (evs : List WsEv),
        (runTrace now initState evs).reconnectAttempts ≤ maxReconnectAttempts) := by
  refine ⟨fun now s => ?_, fun now s => rfl, fun now evs =>
    runTrace_attempts_le now evs initState (by decide)⟩
  rw [step]
  unfold onCloseHandler
  split
  · simp
  · simp

/-- C4 counterexample: after five consecutive unexpected closes of a
connected session with no successful reconnect, no terminal failure entry
has been appended yet (the claim requires exactly one), and a fifth
reconnect timer has just been scheduled. -/
theorem five_closes_without_terminal_entry :
    countFailedEntries (runTrace "t1" connectedS
        (List.replicate 5 WsEv.wsClose)).messages = 0 ∧
    (runTrace "t1" connectedS (List.replicate 5 WsEv.wsClose)).schedCount = 5 ∧
    (runTrace "t1" connectedS (List.replicate 5 WsEv.wsClose)).reconnectAttempts = 5 :=
  ⟨rfl, rfl, rfl⟩

/-- C4 amended: the terminal entry appears after six consecutive closes
(the initial unexpected close plus the closes of the five failed
reconnects), and it appears exactly once at that point; over any number
of consecutive closes at most five reconnect timers are ever scheduled,
so a sixth automatic reconnect attempt is never scheduled. -/
theorem six_closes_single_terminal_entry (now : String) :
    countFailedEntries (runTrace now connectedS
        (List.replicate 6 WsEv.wsClose)).messages = 1 ∧
    ∀ (n : Nat),
      (runTrace now connectedS (List.replicate n WsEv.wsClose)).schedCount ≤
        maxReconnectAttempts := by
  constructor
  · rfl
  · intro n
    exact closes_sched_bound now n connectedS (by decide) (by decide)

/-- C5: connectWebSocket is idempotent while the socket is OPEN: it
returns the state unchanged - same clientId, reconnectAttempts,
isConnected, socket handle and chat state - and constructs no new
WebSocket (the construction counter is part of the state equality). -/
theorem connectWebSocket_idempotent (s : CState)
    (h : s.ws = some ReadyState.OPEN) : connectWebSocket s = s := by
  simp [connectWebSocket, h]

/-- Witness for connectWebSocket_idempotent on a connected session. -/
theorem connectWebSocket_idempotent_witness :
    connectWebSocket connectedS = connectedS :=
  connectWebSocket_idempotent connectedS rfl

/-- C6 counterexample: the system content "Processing File" matches none
of the patterns enumerated by the claim, yet the router suppresses it
entirely instead of appending it to history as the claim requires. -/
theorem processing_file_not_appended :
    ("Processing File" = "Connected to chat server" → False) ∧
    strStartsWith "Processing File" "Welcome! Your client ID is:" = false ∧
    strStartsWith "Processing File" "Log file processed successfully:" = false ∧
    strStartsWith "Processing File" "File saved successfully:" = false ∧
    onMessageReceived initState
      { type := "system", content := "Processing File", timestamp := "t2" } =
      initState :=
  ⟨by decide, rfl, rfl, rfl, rfl⟩

/-- C6 amended: the system branch dispatches in source order - the exact
greeting and the client-id prefix are suppressed with no state change;
the exact status text "Processing File" is likewise suppressed with no
state change; then the log-processed pattern clears the three processing
flags without appending; then the file-saved pattern clears
isUploadingFile and sets isProcessingFile without appending; all
remaining system content is appended as a system-authored entry. -/
theorem system_message_dispatch (s : CState) (m : Msg)
    (h : m.type = "system") :
    (m.content = "Connected to chat server" ∨
        strStartsWith m.content "Welcome! Your client ID is:" = true →
      onMessageReceived s m = s) ∧
    (¬ (m.content = "Connected to chat server" ∨
        strStartsWith m.content "Welcome! Your client ID is:" = true) →
      m.content = "Processing File" →
      onMessageReceived s m = s) ∧
    (¬ (m.content = "Connected to chat server" ∨
        strStartsWith m.content "Welcome! Your client ID is:" = true) →
      m.content ≠ "Processing File" →
      strStartsWith m.content "Log file processed successfully:" = true →
      onMessageReceived s m =
        { s with isProcessingFile := false, isUploadingFile := false,
                 isProcessingQuestion := false }) ∧
    (¬ (m.content = "Connected to chat server" ∨
        strStartsWith m.content "Welcome! Your client ID is:" = true) →
      m.content ≠ "Processing File" →
      strStartsWith m.content "Log file processed successfully:" = false →
      strStartsWith m.content "File saved successfully:" = true →
      onMessageReceived s m =
        { s with isUploadingFile := false, isProcessingFile := true }) ∧
    (¬ (m.content = "Connected to chat server" ∨
        strStartsWith m.content "Welcome! Your client ID is:" = true) →
      m.content ≠ "Processing File" →
      strStartsWith m.content "Log file processed successfully:" = false →
      strStartsWith m.content "File saved successfully:" = false →
      onMessageReceived s m =
        { s with messages := s.messages ++
            [{ type := "system", content := m.content,
               timestamp := m.timestamp }] }) := by
  refine ⟨fun h1 => ?_, fun h1 h2 => ?_, fun h1 h2 h3 => ?_,
    fun h1 h2 h3 h4 => ?_, fun h1 h2 h3 h4 => ?_⟩ <;>
    simp_all [onMessageReceived]

/-- Witness for system_message_dispatch on ordinary system content. -/
theorem system_message_dispatch_witness :
    onMessageReceived initState
      { type := "system", content := "hello", timestamp := "t3" } =
      { initState with messages :=
          [{ type := "system", content := "hello", timestamp := "t3" }] } :=
  (system_message_dispatch initState
      { type := "system", content := "hello", timestamp := "t3" } rfl).2.2.2.2
    (by decide) (by decide) rfl rfl

/-- C7 counterexample: invoking the chunked upload holding a file while
the socket handle is null transmits nothing, but the first chunk IS read
before the failing send - the claim requires that no chunk is read. -/
theorem disconnected_upload_reads_first_chunk :
    offlineUploadS.ws = none ∧
    (sendFileChunks "t4" offlineUploadS).sent = [] ∧
    (sendFileChunks "t4" offlineUploadS).reads = 1 :=
  ⟨rfl, rfl, rfl⟩

/-- C7 amended: with a null socket handle and a nonempty current file the
upload aborts on its first send: nothing is transmitted (no file_chunk
and no file_complete), but exactly one chunk read occurs first; the
failure surfaces as an upload error entry, chat is re-enabled and the
uploading flag cleared. -/
theorem sendFileChunks_disconnected_aborts (now : String) (s : CState)
    (f : File) (hws : s.ws = none) (hf : s.currentFile = some f)
    (hne : f.bytes ≠ []) :
    (sendFileChunks now s).sent = [] ∧
    (sendFileChunks now s).reads = 1 ∧
    (sendFileChunks now s).state.messages = s.messages ++
      [{ type := "error", content := "Error sending file: " ++ sendThrowReason,
         timestamp := now }] ∧
    (sendFileChunks now s).state.isUploadingFile = false ∧
    (sendFileChunks now s).state.isChatEnabled = true := by
  have hpos : 0 < f.bytes.length := List.length_pos.mpr hne
  have hC : 0 < chunkSize := by decide
  have htot : 0 < totalChunksOf f.bytes.length :=
    Nat.div_pos (by unfold chunkSize at hC ⊢; omega) hC
  obtain ⟨k, hk⟩ := Nat.exists_eq_succ_of_ne_zero (Nat.pos_iff_ne_zero.mp htot)
  have hLoop : sendChunkLoop none f (totalChunksOf f.bytes.length) 0
      (totalChunksOf f.bytes.length) = ([], 1, true) := by
    rw [hk]
    simp [sendChunkLoop, wsSend]
  rw [sendFileChunks_some now s f hf, hws, hLoop]
  exact ⟨rfl, rfl, rfl, rfl, rfl⟩

/-- Witness for sendFileChunks_disconnected_aborts on a concrete state. -/
theorem sendFileChunks_disconnected_aborts_witness :
    (sendFileChunks "t5" offlineUploadS).sent = [] ∧
    (sendFileChunks "t5" offlineUploadS).reads = 1 ∧
    (sendFileChunks "t5" offlineUploadS).state.messages =
      offlineUploadS.messages ++
      [{ type := "error", content := "Error sending file: " ++ sendThrowReason,
         timestamp := "t5" }] ∧
    (sendFileChunks "t5" offlineUploadS).state.isUploadingFile = false ∧
    (sendFileChunks "t5" offlineUploadS).state.isChatEnabled = true :=
  sendFileChunks_disconnected_aborts "t5" offlineUploadS bFile rfl rfl
    (by decide)

/-- C8 counterexample: sendMessage, an outbound send operation, mutates
isProcessingQuestion - from a connected state with the flag set and a
nonempty draft, sending resets the flag to false. -/
theorem sendMessage_clears_processing_flag :
    chatPendingS.isProcessingQuestion = true ∧
    (sendMessage "t6" chatPendingS).isProcessingQuestion = false :=
  ⟨rfl, rfl⟩

/-- C8 amended: flag ownership holds with two carve-outs - the uploader
mutates only its own subset (isUploadingFile, isChatEnabled,
isSendingFile) and leaves isProcessingQuestion and isProcessingFile
unchanged, and sendMessage additionally resets isProcessingQuestion to
false whenever its guard passes, while never touching isUploadingFile or
isProcessingFile; sendDataToBackend mutates no component state at all. -/
theorem send_ops_flag_frame (now : String) (s : CState) :
    (sendMessage now s).isUploadingFile = s.isUploadingFile ∧
    (sendMessage now s).isProcessingFile = s.isProcessingFile ∧
    (¬ (blankDraft s.newMessage = true ∨ s.isConnected = false ∨ s.ws = none) →
      (sendMessage now s).isProcessingQuestion = false) ∧
    (sendFileChunks now s).state.isProcessingQuestion = s.isProcessingQuestion ∧
    (sendFileChunks now s).state.isProcessingFile = s.isProcessingFile ∧
    sendDataToBackend s = s := by
  refine ⟨?_, ?_, fun hg => ?_, (sendFileChunks_frame now s).2.1,
    (sendFileChunks_frame now s).2.2.1, rfl⟩
  · unfold sendMessage
    split
    · rfl
    · split <;> rfl
  · unfold sendMessage
    split
    · rfl
    · split <;> rfl
  · unfold sendMessage
    rw [if_neg hg]
    split <;> rfl

/-- Witness for send_ops_flag_frame on a connected state with a draft. -/
theorem send_ops_flag_frame_witness :
    (sendMessage "t7" chatPendingS).isProcessingQuestion = false :=
  (send_ops_flag_frame "t7" chatPendingS).2.2.1 (by decide)

/-- C9 counterexample: after an unexpected close has scheduled a
reconnect timer, an explicit disconnect leaves the handle null, yet when
the timer fires connectWebSocket constructs a new socket: the session
does not remain disconnected. -/
theorem reconnect_after_disconnect :
    (runTrace "t8" connectedS [WsEv.wsClose, WsEv.disconnectCall]).ws = none ∧
    (runTrace "t8" connectedS
        [WsEv.wsClose, WsEv.disconnectCall, WsEv.timerFire]).ws =
      some ReadyState.CONNECTING ∧
    (runTrace "t8" connectedS
        [WsEv.wsClose, WsEv.disconnectCall, WsEv.timerFire]).opensStarted =
      connectedS.opensStarted + 1 :=
  ⟨rfl, rfl, rfl⟩

/-- C9 amended: explicit disconnect nulls the handle and clears
isConnected but cancels nothing - a close event arriving afterwards still
increments the counter and schedules a reconnect while attempts are below
the ceiling, and a previously scheduled timer firing after disconnect
constructs a brand-new connection, so the session does not remain
disconnected until an explicit external connect. -/
theorem disconnect_leaves_timers_active (now : String) (s : CState)
    (hws : s.ws = none) (hlt : s.reconnectAttempts < maxReconnectAttempts) :
    (disconnectWebSocket s).ws = none ∧
    (step now s WsEv.wsClose).schedCount = s.schedCount + 1 ∧
    (step now s WsEv.timerFire).opensStarted = s.opensStarted + 1 ∧
    (step now s WsEv.timerFire).ws = some ReadyState.CONNECTING := by
  refine ⟨?_, ?_, ?_, ?_⟩
  · simp [disconnectWebSocket, hws]
  · simp [step, onCloseHandler, hlt]
  · rw [step]
    unfold connectWebSocket
    rw [if_neg (by simp [hws])]
    split <;> rfl
  · rw [step]
    unfold connectWebSocket
    rw [if_neg (by simp [hws])]
    split <;> rfl

/-- Witness for disconnect_leaves_timers_active after a close followed by
an explicit disconnect. -/
theorem disconnect_leaves_timers_active_witness :
    (disconnectWebSocket postDisconnectS).ws = none ∧
    (step "t9" postDisconnectS WsEv.wsClose).schedCount =
      postDisconnectS.schedCount + 1 ∧
    (step "t9" postDisconnectS WsEv.timerFire).opensStarted =
      postDisconnectS.opensStarted + 1 ∧
    (step "t9" postDisconnectS WsEv.timerFire).ws =
      some ReadyState.CONNECTING :=
  disconnect_leaves_timers_active "t9" postDisconnectS rfl (by decide)

/-- C10 counterexample: after a successful upload isChatEnabled is false,
and neither the file-saved pattern, nor the log-processed pattern, nor an
error message restores it - so the claim that those inbound messages
clear both flags fails for isChatEnabled. -/
theorem chat_not_reenabled_by_router :
    afterUploadS.isChatEnabled = false ∧
    (onMessageReceived afterUploadS
      { type := "system", content := "File saved successfully: a.bin",
        timestamp := "ta" }).isChatEnabled = false ∧
    (onMessageReceived afterUploadS
      { type := "system", content := "Log file processed successfully: a.bin",
        timestamp := "ta" }).isChatEnabled = false ∧
    (onMessageReceived afterUploadS
      { type := "error", content := "boom",
        timestamp := "ta" }).isChatEnabled = false :=
  ⟨rfl, rfl, rfl, rfl⟩

/-- C10 amended: a successful sendFileChunks run returns with
isUploadingFile still true and isChatEnabled still false, only
isSendingFile cleared and currentFile nulled, and no history entry
appended; a subsequent file-saved or log-processed system message or an
error message clears isUploadingFile, but no inbound message ever writes
isChatEnabled - only the failure path of the uploader itself resets it. -/
theorem upload_success_flag_frame (now : String) (s : CState) (f : File)
    (hws : s.ws = some ReadyState.OPEN) (hf : s.currentFile = some f) :
    (sendFileChunks now s).state.isUploadingFile = true ∧
    (sendFileChunks now s).state.isChatEnabled = false ∧
    (sendFileChunks now s).state.isSendingFile = false ∧
    (sendFileChunks now s).state.currentFile = none ∧
    (sendFileChunks now s).state.messages = s.messages ∧
    (∀ (s2 : CState) (m : Msg),
      (onMessageReceived s2 m).isChatEnabled = s2.isChatEnabled) ∧
    (∀ (s2 : CState) (m : Msg), m.type = "error" →
      (onMessageReceived s2 m).isUploadingFile = false) ∧
    (∀ (s2 : CState) (m : Msg), m.type = "system" →
      ¬ (m.content = "Connected to chat server" ∨
          strStartsWith m.content "Welcome! Your client ID is:" = true) →
      m.content ≠ "Processing File" →
      strStartsWith m.content "Log file processed successfully:" = true →
      (onMessageReceived s2 m).isUploadingFile = false) ∧
    (∀ (s2 : CState) (m : Msg), m.type = "system" →
      ¬ (m.content = "Connected to chat server" ∨
          strStartsWith m.content "Welcome! Your client ID is:" = true) →
      m.content ≠ "Processing File" →
      strStartsWith m.content "Log file processed successfully:" = false →
      strStartsWith m.content "File saved successfully:" = true →
      (onMessageReceived s2 m).isUploadingFile = false) := by
  rw [sendFileChunks_open_eq now s f hws hf]
  refine ⟨rfl, rfl, rfl, rfl, rfl, fun s2 m => (onMessageReceived_frame s2 m).2.1,
    fun s2 m hm => ?_, fun s2 m hm h1 h2 h3 => ?_, fun s2 m hm h1 h2 h3 h4 => ?_⟩ <;>
    simp_all [onMessageReceived]

/-- Witness for upload_success_flag_frame on a concrete connected
session with a file. -/
theorem upload_success_flag_frame_witness :
    (sendFileChunks "tb" uploadReadyS).state.isUploadingFile = true ∧
    (sendFileChunks "tb" uploadReadyS).state.isChatEnabled = false :=
  ⟨(upload_success_flag_frame "tb" uploadReadyS aFile rfl rfl).1,
   (upload_success_flag_frame "tb" uploadReadyS aFile rfl rfl).2.1⟩

end UAV
